import Mathlib

/-!
Verification of the gesture-classifier / camera-controller core of the
neon-genesis solar-system app.

The embedding works over exact rationals (ℚ).  Calls into external math
libraries (Math.cos, Math.sin, Math.sqrt, Math.PI, THREE.Vector3.normalize)
are abstracted as parameters bundled in `RealOps`: every theorem below either
holds for an arbitrary interpretation of those primitives, or is a concrete
counterexample instantiating them explicitly.
-/

namespace NeonSolar

/-- One normalized 2D landmark point (MediaPipe hand landmark). -/
structure Landmark where
  x : ℚ
  y : ℚ
deriving DecidableEq

/-- A detected hand: index → landmark (21 landmarks per hand; the classifier
reads indices 0, 4, 6, 8, 10, 12, 14, 16, 18, 20). -/
abbrev Hand := Nat → Landmark

/-- Gesture events (HandController.tsx `HandGesture`, with the loosely typed
`value` field split per variant). -/
inductive HandGesture where
  | NONE
  | ROTATE (dx dy : ℚ)
  | ZOOM (delta : ℚ)
  | FOCUS (x y : ℚ)
  | EXIT_FOCUS
deriving DecidableEq

/-- Classifier retained state (HandController refs `lastHandPos`,
`lastPinchDist`, `gestureHoldStart`).  Timestamps are `Date.now()`
milliseconds. -/
structure ClassifierState where
  lastHandPos : Option (ℚ × ℚ)
  lastPinchDist : Option ℚ
  gestureHoldStart : ℚ
deriving DecidableEq

/-- Initial refs: `useRef(null)`, `useRef(null)`, `useRef(0)`. -/
def initClassifierState : ClassifierState :=
  { lastHandPos := none, lastPinchDist := none, gestureHoldStart := 0 }

/-- Pointer / fall-through tail of `processGestures` (part_000 lines 185-196):
index-only pose emits FOCUS with mirrored x; anything else emits nothing;
both refresh `lastHandPos` to the wrist. -/
def pointerOrIdle (wrist indexTip : Landmark)
    (indexExt middleExt ringExt pinkyExt : Prop)
    [Decidable indexExt] [Decidable middleExt] [Decidable ringExt] [Decidable pinkyExt]
    (s : ClassifierState) : Option HandGesture × ClassifierState :=
  if indexExt ∧ ¬middleExt ∧ ¬ringExt ∧ ¬pinkyExt then
    (some (.FOCUS (1 - indexTip.x) indexTip.y),
     { s with lastHandPos := some (wrist.x, wrist.y) })
  else
    (none, { s with lastHandPos := some (wrist.x, wrist.y) })

/-- `processGestures` (part_000 lines 103-196).  `sqrt` abstracts
`Math.sqrt`; `now` is `Date.now()`.  The returned option is the gesture
passed to `onGesture` this tick (`none` = no call). -/
def processGestures (sqrt : ℚ → ℚ) (now : ℚ) (landmarksList : List Hand)
    (s : ClassifierState) : Option HandGesture × ClassifierState :=
  match landmarksList with
  | [hand1, hand2] =>
      -- 1. TWO HANDS ZOOM (wrist-to-wrist distance)
      let w1 := hand1 0
      let w2 := hand2 0
      let dist := sqrt ((w1.x - w2.x) ^ 2 + (w1.y - w2.y) ^ 2)
      let out : Option HandGesture :=
        match s.lastPinchDist with
        | some prev =>
            if |dist - prev| > 0.005 then some (.ZOOM ((dist - prev) * 20)) else none
        | none => none
      (out, { s with lastPinchDist := some dist, lastHandPos := none })
  | hand :: _ =>
      -- Single-hand processing; `lastPinchDist.current = null` (line 126)
      let s := { s with lastPinchDist := none }
      let wrist := hand 0
      let indexTip := hand 8
      let indexExt := (hand 8).y < (hand 6).y
      let middleExt := (hand 12).y < (hand 10).y
      let ringExt := (hand 16).y < (hand 14).y
      let pinkyExt := (hand 20).y < (hand 18).y
      if indexExt ∧ middleExt ∧ ¬ringExt ∧ ¬pinkyExt then
        -- 2. ROTATE: victory pose, wrist delta vs lastHandPos
        match s.lastHandPos with
        | some p =>
            let dX := wrist.x - p.1
            let dY := wrist.y - p.2
            let out : Option HandGesture :=
              if |dX| > 0.002 ∨ |dY| > 0.002 then some (.ROTATE dX dY) else none
            (out, { s with lastHandPos := some (wrist.x, wrist.y) })
        | none => (none, { s with lastHandPos := some (wrist.x, wrist.y) })
      else
        if indexExt ∧ middleExt ∧ ringExt ∧ pinkyExt then
          -- 3. EXIT FOCUS: open palm vs hold timer
          if now - s.gestureHoldStart > 1000 then
            (some .EXIT_FOCUS, { s with gestureHoldStart := now })
          else
            pointerOrIdle wrist indexTip indexExt middleExt ringExt pinkyExt s
        else
          -- palm not open: reset the hold-start timestamp (line 182)
          pointerOrIdle wrist indexTip indexExt middleExt ringExt pinkyExt
            { s with gestureHoldStart := now }
  | [] => (none, s)   -- unreachable: predictWebcam guards length > 0

/-- One tick of `predictWebcam` (part_000 lines 85-101): with hands present
it defers to `processGestures`; with zero hands it emits NONE and clears both
retained positions (the hold timestamp is kept). -/
def predictTick (sqrt : ℚ → ℚ) (now : ℚ) (hands : List Hand)
    (s : ClassifierState) : Option HandGesture × ClassifierState :=
  if hands.length > 0 then processGestures sqrt now hands s
  else (some .NONE, { s with lastHandPos := none, lastPinchDist := none })

/-- 3D vector (THREE.Vector3 over exact rationals). -/
structure Vec3 where
  x : ℚ
  y : ℚ
  z : ℚ
deriving DecidableEq

/-- THREE.Vector3.lerp: `v += (target - v) * alpha`. -/
def lerpV (a b : Vec3) (t : ℚ) : Vec3 :=
  ⟨a.x + (b.x - a.x) * t, a.y + (b.y - a.y) * t, a.z + (b.z - a.z) * t⟩

/-- THREE.Vector3.multiplyScalar. -/
def scaleV (v : Vec3) (k : ℚ) : Vec3 := ⟨v.x * k, v.y * k, v.z * k⟩

/-- Abstract interpretation of the external math primitives used by the
camera controller and classifier (Math.cos/sin/sqrt, Math.PI,
THREE.Vector3.normalize). -/
structure RealOps where
  cos : ℚ → ℚ
  sin : ℚ → ℚ
  sqrt : ℚ → ℚ
  pi : ℚ
  normalize : Vec3 → Vec3

/-- Celestial body descriptor (types.ts `PlanetData`; the prose `details`
field is omitted as it never reaches any computation). -/
structure PlanetData where
  id : String
  name : String
  radius : ℚ
  distance : ℚ
  speed : ℚ
  rotationSpeed : ℚ
  color : String
  moons : Nat
  hasRings : Bool
deriving DecidableEq

def sunD : PlanetData := ⟨"sun", "Sun", 12, 0, 0, 0.005, "#ffaa00", 0, false⟩
def mercuryD : PlanetData := ⟨"mercury", "Mercury", 1.5, 35, 1.5, 0.01, "#00e0ff", 0, false⟩
def venusD : PlanetData := ⟨"venus", "Venus", 2.2, 55, 1.2, 0.008, "#ff00ff", 0, false⟩
def earthD : PlanetData := ⟨"earth", "Earth", 2.4, 75, 1, 0.02, "#00ff41", 1, false⟩
def marsD : PlanetData := ⟨"mars", "Mars", 1.8, 95, 0.8, 0.018, "#ff3333", 2, false⟩
def jupiterD : PlanetData := ⟨"jupiter", "Jupiter", 6.5, 150, 0.4, 0.04, "#bf00ff", 95, false⟩
def saturnD : PlanetData := ⟨"saturn", "Saturn", 5.5, 200, 0.3, 0.038, "#ffd700", 146, true⟩
def uranusD : PlanetData := ⟨"uranus", "Uranus", 3.5, 250, 0.2, 0.03, "#00ffff", 27, false⟩
def neptuneD : PlanetData := ⟨"neptune", "Neptune", 3.4, 290, 0.15, 0.032, "#0033ff", 14, false⟩

/-- constants.ts `PLANET_DATA`. -/
def PLANET_DATA : List PlanetData :=
  [sunD, mercuryD, venusD, earthD, marsD, jupiterD, saturnD, uranusD, neptuneD]

/-- Control modes.  The canonical enum in the hand-enabled build has four
members (UIOverlay/Scene3D/HandController all branch on `ControlMode.HAND`). -/
inductive ControlMode where
  | MOUSE
  | KEYBOARD
  | AUTO
  | HAND
deriving DecidableEq

/-- CameraController mutable pose/state: camera position, OrbitControls
target and enabled flag, camera lookAt direction target, `autoOrbitRef`, and
the `handState` ref (rotation, zoom, cursor). -/
structure CamState where
  camPos : Vec3
  ctrlTarget : Vec3
  ctrlEnabled : Bool
  lookAt : Vec3
  autoOrbit : ℚ
  handRotX : ℚ
  handRotY : ℚ
  handZoom : ℚ
  handCursor : ℚ × ℚ
deriving DecidableEq

/-- Initial controller state: camera effect sets position (0,150,300);
OrbitControls target defaults to the origin; `autoOrbitRef = 0`;
`handState = {rotation:{0,0}, zoom:300, cursor:(0,0)}`. -/
def cam0 : CamState :=
  { camPos := ⟨0, 150, 300⟩, ctrlTarget := ⟨0, 0, 0⟩, ctrlEnabled := true
  , lookAt := ⟨0, 0, 0⟩, autoOrbit := 0
  , handRotX := 0, handRotY := 0, handZoom := 300, handCursor := (0, 0) }

/-- `OrbitControls enabled` prop (part_000 line 599):
`enabled={appState.controlMode === ControlMode.MOUSE}`. -/
def orbitControlsEnabled (mode : ControlMode) : Bool :=
  decide (mode = ControlMode.MOUSE)

/-- One iteration of CameraController's `useFrame` callback (part_000 lines
487-567).  `gesture` is `gestureRef.current` (always supplied by App);
`elapsed` is `clock.getElapsedTime()`, `delta` the frame delta time. -/
def frameStep (ops : RealOps) (mode : ControlMode) (focusedBody : Option String)
    (gesture : HandGesture) (elapsed delta simSpeed : ℚ) (s : CamState) : CamState :=
  if mode = .AUTO then
    let a := s.autoOrbit + delta * 0.05
    let x := ops.sin a * 350
    let z := ops.cos a * 350
    { s with autoOrbit := a
           , camPos := lerpV s.camPos ⟨x, 100, z⟩ 0.05
           , lookAt := ⟨0, 0, 0⟩ }
  else if mode = .HAND then
    let s1 :=
      match gesture with
      | .ROTATE dx dy =>
          let speed : ℚ := 5
          let rx := s.handRotX + dx * speed
          let ry := s.handRotY + dy * speed
          let r := s.handZoom
          let theta := rx
          let phi := max 0.1 (min (ops.pi / 2 - 0.1) (ry + ops.pi / 4))
          let x := r * ops.sin phi * ops.sin theta
          let z := r * ops.sin phi * ops.cos theta
          let y := r * ops.cos phi
          { s with handRotX := rx, handRotY := ry
                 , camPos := lerpV s.camPos ⟨x, y, z⟩ 0.1
                 , lookAt := ⟨0, 0, 0⟩ }
      | .ZOOM v =>
          let zoom := max 50 (min 600 (s.handZoom - v))
          let dir := ops.normalize s.camPos
          { s with handZoom := zoom
                 , camPos := lerpV s.camPos (scaleV dir zoom) 0.1 }
      | .FOCUS gx gy =>
          { s with handCursor := (gx * 2 - 1, -(gy * 2 - 1)) }
      | _ => s
    { s1 with ctrlEnabled := false }
  else
    match focusedBody with
    | some fb =>
        match PLANET_DATA.find? (fun p => p.id == fb) with
        | some planet =>
            let t := elapsed * planet.speed * simSpeed * 0.2
            let pX := ops.cos t * planet.distance
            let pZ := ops.sin t * planet.distance
            { s with ctrlTarget := lerpV s.ctrlTarget ⟨pX, 0, pZ⟩ 0.1
                   , camPos := lerpV s.camPos
                       ⟨pX + planet.radius * 5, planet.radius * 3, pZ + planet.radius * 5⟩ 0.05 }
        | none => s
    | none => { s with ctrlEnabled := true }

/-- Inputs of one render frame (used to run frame sequences). -/
structure FrameInput where
  mode : ControlMode
  focusedBody : Option String
  gesture : HandGesture
  elapsed : ℚ
  delta : ℚ
  simSpeed : ℚ

/-- Fold `frameStep` over a sequence of render frames. -/
def runFrames (ops : RealOps) (s : CamState) (fs : List FrameInput) : CamState :=
  fs.foldl (fun c f => frameStep ops f.mode f.focusedBody f.gesture f.elapsed f.delta f.simSpeed c) s

/-- Planet `useFrame` orbit update (part_000 lines 271-286, position part):
position is rewritten from the clock only when `distance > 0`; the sun's
group keeps its (initial, origin) position. -/
def planetOrbitUpdate (ops : RealOps) (data : PlanetData) (elapsed simSpeed : ℚ)
    (pos : Vec3) : Vec3 :=
  let t := elapsed * data.speed * simSpeed * 0.2
  if data.distance > 0 then ⟨ops.cos t * data.distance, pos.y, ops.sin t * data.distance⟩
  else pos

/-- Planet render position after a list of frames `(elapsed, simSpeed)`,
starting from the group's initial position (the origin). -/
def planetPosFromStart (ops : RealOps) (data : PlanetData)
    (frames : List (ℚ × ℚ)) : Vec3 :=
  frames.foldl (fun pos f => planetOrbitUpdate ops data f.1 f.2 pos) ⟨0, 0, 0⟩

/-- Modelled from the spec (section 4.3 Orbit Kinematics): the shared pure
function `position(body, elapsedTime, simulationSpeedMultiplier) → (x,z)`
with `angle = elapsedTime × angularSpeed × simSpeed × 0.2`,
`x = cos(angle) × distance`, `z = sin(angle) × distance`; stated here to be
compared against the two concrete code sites. -/
def orbitKinematicsSpec (ops : RealOps) (data : PlanetData)
    (elapsed simSpeed : ℚ) : ℚ × ℚ :=
  let angle := elapsed * data.speed * simSpeed * 0.2
  (ops.cos angle * data.distance, ops.sin angle * data.distance)

/-- Whole-app state relevant to the gesture pipeline: control mode and focus
(App.tsx state), the shared `gestureRef`, and the camera controller state. -/
structure SysState where
  mode : ControlMode
  focusedBody : Option String
  gestureRef : HandGesture
  cam : CamState
deriving DecidableEq

/-- Initial app state: mode MOUSE, no focus, `gestureRef = {type:'NONE'}`. -/
def sysInit : SysState :=
  { mode := .MOUSE, focusedBody := none, gestureRef := .NONE, cam := cam0 }

/-- System events: a UI mode switch, a classifier emission reaching
App.tsx `handleGesture`, or one render frame. -/
inductive SysEvent where
  | setMode (m : ControlMode)
  | emitGesture (g : HandGesture)
  | frame (elapsed delta simSpeed : ℚ)

/-- One system step.  `setMode` only swaps the mode (leaving Hand mode stops
the webcam and cancels the rAF loop — part_000 lines 74-83 — but does NOT
touch `gestureRef`).  `emitGesture` models App.tsx `handleGesture` (gestureRef
update plus the EXIT_FOCUS focus-clear); emissions can only originate while
the webcam loop runs, i.e. in Hand mode, hence the guard.  `frame` runs the
camera controller. -/
def sysStep (ops : RealOps) (s : SysState) (e : SysEvent) : SysState :=
  match e with
  | .setMode m => { s with mode := m }
  | .emitGesture g =>
      if s.mode = .HAND then
        { s with gestureRef := g
               , focusedBody :=
                   if g = .EXIT_FOCUS ∧ s.focusedBody.isSome then none
                   else s.focusedBody }
      else s
  | .frame elapsed delta simSpeed =>
      { s with cam := frameStep ops s.mode s.focusedBody s.gestureRef elapsed delta simSpeed s.cam }

/-- Run a list of system events. -/
def sysRun (ops : RealOps) (s : SysState) (es : List SysEvent) : SysState :=
  es.foldl (sysStep ops) s

/-- Target of one gsap transition started by the focus-change effect. -/
structure ResetTransition where
  pos : Vec3
  target : Vec3
  duration : ℚ
deriving DecidableEq

/-- The reset transition of part_000 lines 467-478: camera to (0,150,300),
controls target to (0,0,0), 2 seconds, eased. -/
def resetTransition : ResetTransition := ⟨⟨0, 150, 300⟩, ⟨0, 0, 0⟩, 2⟩

/-- Dependency array of the focus-change effect (part_000 line 483:
`[appState.focusedBody, camera, appState.controlMode]`; the camera object is
referentially constant). -/
structure FocusDeps where
  focusedBody : Option String
  controlMode : ControlMode
deriving DecidableEq

/-- Body of the focus-change effect (part_000 lines 462-483): when focus is
cleared and the mode is not AUTO it starts the gsap reset transition;
otherwise it does nothing. -/
def focusEffectBody (d : FocusDeps) : Option ResetTransition :=
  if d.focusedBody = none then
    if d.controlMode = .AUTO then none else some resetTransition
  else none

/-- React effect semantics: the effect body re-runs exactly when the
dependency array changed since the previous render. -/
def focusEffectStep (prev cur : FocusDeps) : Option ResetTransition :=
  if prev = cur then none else focusEffectBody cur

/-! ### Concrete instantiations used by counterexamples and witnesses -/

/-- A concrete interpretation of the abstract math primitives, used when a
counterexample or witness must evaluate closed terms. -/
def ops0 : RealOps :=
  { cos := fun _ => 1, sin := fun _ => 0, sqrt := fun _ => 0, pi := 0
  , normalize := fun v => v }

/-- An open-palm hand: all four non-thumb fingertips (8,12,16,20) strictly
above (smaller y) their pip joints (6,10,14,18). -/
def palmH : Hand := fun i =>
  if i = 8 ∨ i = 12 ∨ i = 16 ∨ i = 20 then ⟨0.5, 0.2⟩ else ⟨0.5, 0.6⟩

/-- A closed fist: every fingertip below its pip joint. -/
def fistH : Hand := fun i =>
  if i = 8 ∨ i = 12 ∨ i = 16 ∨ i = 20 then ⟨0.5, 0.8⟩ else ⟨0.5, 0.6⟩

/-- A hand whose wrist sits at a given point (used for two-hand distance
scenarios; only landmark 0 matters in the two-hand branch). -/
def wristAt (p : Landmark) : Hand := fun _ => p

/-! ## Theorems -/

/-- C10: a zero-hand tick emits the NONE gesture and clears both retained
positions; repeating it is idempotent; and after the reset no stale delta can
leak: the next two-hand tick stores a distance but emits nothing. -/
theorem C10_zero_hands_reset (sqrt : ℚ → ℚ) (now now2 now3 : ℚ) (s : ClassifierState) :
    predictTick sqrt now [] s =
      (some HandGesture.NONE, { s with lastHandPos := none, lastPinchDist := none }) ∧
    (predictTick sqrt now2 [] (predictTick sqrt now [] s).2).2 =
      (predictTick sqrt now [] s).2 ∧
    ∀ (h1 h2 : Hand),
      (processGestures sqrt now3 [h1, h2] (predictTick sqrt now [] s).2).1 = none :=
  ⟨rfl, rfl, fun _ _ => rfl⟩

/-- C3 (amended): on a two-hand tick with a stored previous distance the
classifier emits `ZOOM ((dist - prev) * 20)` exactly when `|dist - prev|`
exceeds the 0.005 dead zone, and otherwise emits nothing at all (not a NONE
event); it always stores the new distance and clears single-hand state. -/
theorem C3_two_hand_zoom (sqrt : ℚ → ℚ) (now : ℚ) (h1 h2 : Hand)
    (s : ClassifierState) (d0 : ℚ) (hs : s.lastPinchDist = some d0) :
    processGestures sqrt now [h1, h2] s =
      (if |sqrt (((h1 0).x - (h2 0).x) ^ 2 + ((h1 0).y - (h2 0).y) ^ 2) - d0| > 0.005
       then some (HandGesture.ZOOM
              ((sqrt (((h1 0).x - (h2 0).x) ^ 2 + ((h1 0).y - (h2 0).y) ^ 2) - d0) * 20))
       else none,
       { s with
         lastPinchDist :=
           some (sqrt (((h1 0).x - (h2 0).x) ^ 2 + ((h1 0).y - (h2 0).y) ^ 2))
       , lastHandPos := none }) := by
  simp only [processGestures, hs]

/-- C3 witness: the spec scenario — stored distance 0.10, new distance 0.13
(square-root interpretation returning 0.13 on the sampled squared wrist
distance) — emits `ZOOM (0.03 × 20 = 0.6)` and stores 0.13. -/
theorem C3_witness :
    processGestures (fun _ => 13/100) 0
        [wristAt ⟨0, 0⟩, wristAt ⟨1/10, 0⟩]
        { initClassifierState with lastPinchDist := some (1/10) } =
      (some (HandGesture.ZOOM (3/5)),
       { initClassifierState with lastPinchDist := some (13/100) }) := by
  rw [C3_two_hand_zoom (fun _ => 13/100) 0
        (wristAt ⟨0, 0⟩) (wristAt ⟨1/10, 0⟩)
        { initClassifierState with lastPinchDist := some (1/10) } (1/10) rfl]
  have habs : |(13/100 : ℚ) - 1/10| > 5e-3 := by
    rw [show (13/100 : ℚ) - 1/10 = 3/100 by norm_num,
        abs_of_nonneg (by norm_num : (0:ℚ) ≤ 3/100)]
    norm_num
  rw [if_pos habs]
  norm_num [initClassifierState]

/-- C3 counterexample: with stored distance 0.10 and new distance 0.101 the
change (0.001) is inside the dead zone, and the classifier emits NOTHING
(`none` — `onGesture` is not called), not the `NONE` gesture event the claim
requires; the previously emitted gesture therefore stays live downstream. -/
theorem C3_cex :
    (processGestures (fun _ => 101/1000) 0
        [wristAt ⟨0, 0⟩, wristAt ⟨1/10, 0⟩]
        { initClassifierState with lastPinchDist := some (1/10) }).1 = none ∧
    (none : Option HandGesture) ≠ some HandGesture.NONE := by
  have hno : ¬ (|(101/1000 : ℚ) - 1/10| > 5e-3) := by
    rw [show (101/1000 : ℚ) - 1/10 = 1/1000 by norm_num,
        abs_of_nonneg (by norm_num : (0:ℚ) ≤ 1/1000)]
    norm_num
  refine ⟨?_, by simp⟩
  have key : processGestures (fun _ => 101/1000) 0
      [wristAt ⟨0, 0⟩, wristAt ⟨1/10, 0⟩]
      { initClassifierState with lastPinchDist := some (1/10) } =
      (none, { initClassifierState with
               lastPinchDist := some (101/1000), lastHandPos := none }) := by
    simp only [processGestures, initClassifierState]
    rw [if_neg hno]
  rw [key]

/-- C2 (amended): at any single-hand open-palm tick, ExitFocus is emitted
exactly when more than 1000 ms have elapsed since the stored hold-start
timestamp, and the emission resets that timestamp (debouncing to at most one
event per 1000 ms of continuous hold, not one per tick); when the threshold
is not yet reached nothing is emitted and the timestamp is left alone.  The
timestamp is NOT the start of the current hold in general: it is only reset
by non-palm, non-victory single-hand ticks (and by emission), never at
startup or on no-hand/two-hand ticks. -/
theorem C2_exit_focus_debounce (sqrt : ℚ → ℚ) (now : ℚ) (h : Hand)
    (s : ClassifierState)
    (h1 : (h 8).y < (h 6).y) (h2 : (h 12).y < (h 10).y)
    (h3 : (h 16).y < (h 14).y) (h4 : (h 20).y < (h 18).y) :
    processGestures sqrt now [h] s =
      if now - s.gestureHoldStart > 1000 then
        (some HandGesture.EXIT_FOCUS,
         { s with lastPinchDist := none, gestureHoldStart := now })
      else
        (none, { s with lastPinchDist := none
                      , lastHandPos := some ((h 0).x, (h 0).y) }) := by
  have hvic : ¬((h 8).y < (h 6).y ∧ (h 12).y < (h 10).y ∧
      ¬(h 16).y < (h 14).y ∧ ¬(h 20).y < (h 18).y) := by
    rintro ⟨-, -, hr, -⟩; exact hr h3
  have hpalm : (h 8).y < (h 6).y ∧ (h 12).y < (h 10).y ∧
      (h 16).y < (h 14).y ∧ (h 20).y < (h 18).y := ⟨h1, h2, h3, h4⟩
  have hpt : ¬((h 8).y < (h 6).y ∧ ¬(h 12).y < (h 10).y ∧
      ¬(h 16).y < (h 14).y ∧ ¬(h 20).y < (h 18).y) := by
    rintro ⟨-, hm, -⟩; exact hm h2
  simp only [processGestures, pointerOrIdle]
  rw [if_neg hvic, if_pos hpalm]
  by_cases ht : now - s.gestureHoldStart > 1000
  · rw [if_pos ht, if_pos ht]
  · rw [if_neg ht, if_neg ht, if_neg hpt]

/-- C2 witness: a first palm tick at time 2000 from a state whose hold
timestamp was reset at time 900 emits ExitFocus (1100 ms > 1000 ms) and
stores 2000 as the new hold timestamp. -/
theorem C2_witness :
    processGestures (fun _ => 0) 2000 [palmH]
        { initClassifierState with gestureHoldStart := 900 } =
      (some HandGesture.EXIT_FOCUS,
       { initClassifierState with gestureHoldStart := 2000 }) := by
  rw [C2_exit_focus_debounce (fun _ => 0) 2000 palmH
        { initClassifierState with gestureHoldStart := 900 }
        (by norm_num [palmH]) (by norm_num [palmH])
        (by norm_num [palmH]) (by norm_num [palmH])]
  rw [if_pos (by norm_num : (2000 : ℚ) - 900 > 1000)]
  norm_num [initClassifierState]

/-- C2 counterexample: starting from the initial classifier state (hold
timestamp 0, as at startup — the timestamp is also left stale by no-hand and
two-hand ticks), the very FIRST open-palm tick, at clock time 2000, emits
ExitFocus immediately (0 ms of actual hold, refuting "only after ... held
continuously for at least 1000 ms"), and the same uninterrupted palm hold
(ticks at 2000, 2500, 3100 — 1100 ms total) emits ExitFocus a second time at
3100, refuting "each continuous hold yields exactly one ExitFocus event". -/
theorem C2_cex :
    (predictTick (fun _ => 0) 2000 [palmH] initClassifierState).1
        = some HandGesture.EXIT_FOCUS ∧
    (predictTick (fun _ => 0) 2500 [palmH]
        (predictTick (fun _ => 0) 2000 [palmH] initClassifierState).2).1 = none ∧
    (predictTick (fun _ => 0) 3100 [palmH]
        (predictTick (fun _ => 0) 2500 [palmH]
          (predictTick (fun _ => 0) 2000 [palmH] initClassifierState).2).2).1
        = some HandGesture.EXIT_FOCUS := by
  have hext : ∀ i j : Nat, (i = 8 ∨ i = 12 ∨ i = 16 ∨ i = 20) →
      ¬(j = 8 ∨ j = 12 ∨ j = 16 ∨ j = 20) → (palmH i).y < (palmH j).y := by
    intro i j hi hj
    simp only [palmH, if_pos hi, if_neg hj]
    norm_num
  have step : ∀ (now : ℚ) (s : ClassifierState),
      processGestures (fun _ => 0) now [palmH] s =
        if now - s.gestureHoldStart > 1000 then
          (some HandGesture.EXIT_FOCUS,
           { s with lastPinchDist := none, gestureHoldStart := now })
        else
          (none, { s with lastPinchDist := none
                        , lastHandPos := some ((palmH 0).x, (palmH 0).y) }) := by
    intro now s
    have hvic : ¬((palmH 8).y < (palmH 6).y ∧ (palmH 12).y < (palmH 10).y ∧
        ¬(palmH 16).y < (palmH 14).y ∧ ¬(palmH 20).y < (palmH 18).y) := by
      rintro ⟨-, -, hr, -⟩
      exact hr (hext 16 14 (by norm_num) (by norm_num))
    have hpalm : (palmH 8).y < (palmH 6).y ∧ (palmH 12).y < (palmH 10).y ∧
        (palmH 16).y < (palmH 14).y ∧ (palmH 20).y < (palmH 18).y :=
      ⟨hext 8 6 (by norm_num) (by norm_num), hext 12 10 (by norm_num) (by norm_num),
       hext 16 14 (by norm_num) (by norm_num), hext 20 18 (by norm_num) (by norm_num)⟩
    have hpt : ¬((palmH 8).y < (palmH 6).y ∧ ¬(palmH 12).y < (palmH 10).y ∧
        ¬(palmH 16).y < (palmH 14).y ∧ ¬(palmH 20).y < (palmH 18).y) := by
      rintro ⟨-, hm, -⟩
      exact hm (hext 12 10 (by norm_num) (by norm_num))
    simp only [processGestures, pointerOrIdle]
    rw [if_neg hvic, if_pos hpalm]
    by_cases ht : now - s.gestureHoldStart > 1000
    · rw [if_pos ht, if_pos ht]
    · rw [if_neg ht, if_neg ht, if_neg hpt]
  have t1 : predictTick (fun _ => 0) 2000 [palmH] initClassifierState =
      (some HandGesture.EXIT_FOCUS,
       { initClassifierState with gestureHoldStart := 2000 }) := by
    show processGestures (fun _ => 0) 2000 [palmH] initClassifierState = _
    rw [step 2000 initClassifierState,
        if_pos (by norm_num [initClassifierState] : (2000:ℚ) - initClassifierState.gestureHoldStart > 1000)]
    norm_num [initClassifierState]
  have t2 : predictTick (fun _ => 0) 2500 [palmH]
      { initClassifierState with gestureHoldStart := 2000 } =
      (none, { initClassifierState with gestureHoldStart := 2000, lastHandPos := some ((palmH 0).x, (palmH 0).y) }) := by
    show processGestures (fun _ => 0) 2500 [palmH] _ = _
    rw [step 2500 _, if_neg (by norm_num : ¬((2500:ℚ) - 2000 > 1000))]
    rfl
  have t3 : (predictTick (fun _ => 0) 3100 [palmH]
      { initClassifierState with gestureHoldStart := 2000, lastHandPos := some ((palmH 0).x, (palmH 0).y) }).1 =
      some HandGesture.EXIT_FOCUS := by
    show (processGestures (fun _ => 0) 3100 [palmH] _).1 = _
    rw [step 3100 _, if_pos (by norm_num : (3100:ℚ) - 2000 > 1000)]
  rw [t1]
  rw [t2]
  exact ⟨rfl, rfl, t3⟩

/-- C5 (amended): every Autopilot frame ignores both the focus target and the
gesture, advances the internal orbit angle by `delta × 0.05` (NOT scaled by
the simulation-speed multiplier), lerps the camera position with factor 0.05
toward `(sin(angle)×350, 100, cos(angle)×350)`, and looks at the origin. -/
theorem C5_autopilot (ops : RealOps) (fb : Option String) (g : HandGesture)
    (elapsed delta simSpeed : ℚ) (s : CamState) :
    frameStep ops .AUTO fb g elapsed delta simSpeed s =
      { s with autoOrbit := s.autoOrbit + delta * 0.05
             , camPos := lerpV s.camPos
                 ⟨ops.sin (s.autoOrbit + delta * 0.05) * 350, 100,
                  ops.cos (s.autoOrbit + delta * 0.05) * 350⟩ 0.05
             , lookAt := ⟨0, 0, 0⟩ } := rfl

/-- C5 counterexample: with simulation speed 2 and delta time 1 the orbit
angle advances by 0.05, not by the claimed `delta × 0.05 × simulationSpeed
= 0.1`. -/
theorem C5_cex :
    (frameStep ops0 .AUTO none .NONE 0 1 2 cam0).autoOrbit = 1/20 ∧
    (1/20 : ℚ) ≠ 1 * 0.05 * 2 := by
  constructor
  · show cam0.autoOrbit + 1 * 0.05 = 1/20
    norm_num [cam0]
  · norm_num

/-- C1 (amended): focused-target tracking runs only when the mode is Pointer
or Keyboard (in Hand mode the gesture branch preempts it): it recomputes the
focused body's orbital position from the current elapsed time, lerps the
controls look-at target toward that live position with factor 0.1, and lerps
the camera position with factor 0.05 toward an offset from the body scaled
by the body's radius (+5r, 3r, +5r). -/
theorem C1_focus_tracking (ops : RealOps) (mode : ControlMode) (id : String)
    (planet : PlanetData) (g : HandGesture) (elapsed delta simSpeed : ℚ)
    (s : CamState)
    (hm : mode = .MOUSE ∨ mode = .KEYBOARD)
    (hfind : PLANET_DATA.find? (fun p => p.id == id) = some planet) :
    frameStep ops mode (some id) g elapsed delta simSpeed s =
      { s with
        ctrlTarget := lerpV s.ctrlTarget
          ⟨ops.cos (elapsed * planet.speed * simSpeed * 0.2) * planet.distance, 0,
           ops.sin (elapsed * planet.speed * simSpeed * 0.2) * planet.distance⟩ 0.1
      , camPos := lerpV s.camPos
          ⟨ops.cos (elapsed * planet.speed * simSpeed * 0.2) * planet.distance
             + planet.radius * 5,
           planet.radius * 3,
           ops.sin (elapsed * planet.speed * simSpeed * 0.2) * planet.distance
             + planet.radius * 5⟩ 0.05 } := by
  rcases hm with rfl | rfl <;> simp only [frameStep, hfind] <;> rfl

/-- C1 witness: a Pointer-mode frame focused on Earth applies exactly the
tracking update (target lerp 0.1 toward the live orbit position, camera lerp
0.05 toward the radius-scaled offset). -/
theorem C1_witness :
    frameStep ops0 .MOUSE (some "earth") .NONE 1 1 1 cam0 =
      { cam0 with
        ctrlTarget := lerpV cam0.ctrlTarget
          ⟨ops0.cos (1 * earthD.speed * 1 * 0.2) * earthD.distance, 0,
           ops0.sin (1 * earthD.speed * 1 * 0.2) * earthD.distance⟩ 0.1
      , camPos := lerpV cam0.camPos
          ⟨ops0.cos (1 * earthD.speed * 1 * 0.2) * earthD.distance
             + earthD.radius * 5,
           earthD.radius * 3,
           ops0.sin (1 * earthD.speed * 1 * 0.2) * earthD.distance
             + earthD.radius * 5⟩ 0.05 } :=
  C1_focus_tracking ops0 .MOUSE "earth" earthD .NONE 1 1 1 cam0 (Or.inl rfl) rfl

/-- C1 counterexample: in Hand mode with a focused body the controller does
NOT perform focused-target tracking — the frame leaves the controls target at
the origin instead of lerping it toward Earth's live orbital position (75, 0)
under the chosen trig interpretation. -/
theorem C1_cex :
    (frameStep ops0 .HAND (some "earth") .NONE 1 1 1 cam0).ctrlTarget ≠
      lerpV cam0.ctrlTarget
        ⟨ops0.cos (1 * earthD.speed * 1 * 0.2) * earthD.distance, 0,
         ops0.sin (1 * earthD.speed * 1 * 0.2) * earthD.distance⟩ 0.1 := by
  show cam0.ctrlTarget ≠ _
  simp only [cam0, ops0, earthD, lerpV, Vec3.mk.injEq, not_and]
  intro hx
  exfalso
  norm_num at hx

/-- C9 (amended): the OrbitControls `enabled` prop is exactly
`mode == Pointer`, independent of the focus target; the frame loop then
forces it to `false` in Hand mode and forces it to `true` on any
non-Autopilot, non-Hand frame with NO focus (including Keyboard mode), while
focused Pointer/Keyboard frames leave the prop value in place.  In
particular a focus target never disables the pointer control. -/
theorem C9_controls_enabled (ops : RealOps) (mode : ControlMode)
    (fb : Option String) (g : HandGesture) (elapsed delta simSpeed : ℚ)
    (s : CamState) :
    (frameStep ops mode fb g elapsed delta simSpeed
        { s with ctrlEnabled := orbitControlsEnabled mode }).ctrlEnabled =
      (if mode = .HAND then false
       else if mode = .AUTO then false
       else if fb.isSome then orbitControlsEnabled mode
       else true) := by
  cases mode with
  | AUTO => rfl
  | HAND => cases g <;> rfl
  | MOUSE =>
      cases fb with
      | none => rfl
      | some id =>
          rcases hf : PLANET_DATA.find? (fun p => p.id == id) with _ | planet <;>
            simp only [frameStep, hf] <;> rfl
  | KEYBOARD =>
      cases fb with
      | none => rfl
      | some id =>
          rcases hf : PLANET_DATA.find? (fun p => p.id == id) with _ | planet <;>
            simp only [frameStep, hf] <;> rfl

/-- C9 counterexample: a Pointer-mode frame with a focus target set leaves
the drag-to-orbit control ENABLED (the prop only tests the mode), refuting
"disabled whenever a FocusTarget is set". -/
theorem C9_cex :
    (frameStep ops0 .MOUSE (some "earth") .NONE 1 1 1
        { cam0 with ctrlEnabled := orbitControlsEnabled .MOUSE }).ctrlEnabled
      = true := rfl

/-- C4 (amended): while the control mode is anything other than Hand, a
render frame is completely independent of the stored gesture — no
gesture-driven pose mutation can occur; and a mode switch leaves the stored
`gestureRef` untouched (it is NOT reset to NONE, so the stale gesture is
read again once Hand mode is re-entered, until a fresh emission overwrites
it). -/
theorem C4_mode_switch (ops : RealOps) (mode : ControlMode)
    (fb : Option String) (g g2 : HandGesture) (elapsed delta simSpeed : ℚ)
    (s : CamState) (hm : mode ≠ .HAND) :
    frameStep ops mode fb g elapsed delta simSpeed s =
      frameStep ops mode fb g2 elapsed delta simSpeed s ∧
    ∀ (st : SysState) (m : ControlMode),
      (sysStep ops st (.setMode m)).gestureRef = st.gestureRef := by
  refine ⟨?_, fun st m => rfl⟩
  cases mode with
  | HAND => exact absurd rfl hm
  | MOUSE => rfl
  | KEYBOARD => rfl
  | AUTO => rfl

/-- C4 witness: a Pointer-mode frame computes the same camera state whether
the stored gesture is `ZOOM 10` or `NONE`. -/
theorem C4_witness :
    frameStep ops0 .MOUSE none (.ZOOM 10) 0 1 1 cam0 =
      frameStep ops0 .MOUSE none .NONE 0 1 1 cam0 :=
  (C4_mode_switch ops0 .MOUSE none (.ZOOM 10) .NONE 0 1 1 cam0
    (by simp)).1

/-- C4 counterexample: enter Hand mode, receive `ZOOM 10`, switch to Pointer
mode (webcam loop torn down, `gestureRef` NOT cleared), render a frame,
re-enter Hand mode and render one more frame BEFORE any fresh gesture: the
stale `ZOOM 10` is read again and mutates the pose (zoom radius 300 → 290),
and while the mode was away from Hand the controller saw the stale `ZOOM 10`,
not `NONE` — refuting the claim's cancellation guarantee. -/
theorem C4_cex :
    (sysRun ops0 sysInit
        [.setMode .HAND, .emitGesture (.ZOOM 10), .setMode .MOUSE,
         .frame 1 1 1, .setMode .HAND, .frame 2 1 1]).cam.handZoom = 290 ∧
    (sysRun ops0 sysInit
        [.setMode .HAND, .emitGesture (.ZOOM 10), .setMode .MOUSE]).gestureRef
      = HandGesture.ZOOM 10 := by
  constructor
  · show (frameStep ops0 .HAND none (.ZOOM 10) 2 1 1
        (frameStep ops0 .MOUSE none (.ZOOM 10) 1 1 1 cam0)).handZoom = 290
    show max 50 (min 600 (cam0.handZoom - 10)) = 290
    norm_num [cam0]
  · rfl

/-- C6 (amended): a render that clears the focus target while the mode is
not Autopilot starts exactly the documented 2-second eased transition to
position (0,150,300) and look-at (0,0,0), and the effect does not re-run —
hence cannot restart the transition — as long as its dependencies
(focusedBody, controlMode) stay unchanged; it IS however re-triggered by a
controlMode change while focus remains cleared. -/
theorem C6_reset_transition (prev cur : FocusDeps)
    (hprev : prev.focusedBody ≠ none) (hcur : cur.focusedBody = none)
    (hmode : cur.controlMode ≠ .AUTO) :
    focusEffectStep prev cur = some resetTransition ∧
    focusEffectStep cur cur = none := by
  constructor
  · have hne : prev ≠ cur := fun h => hprev (by rw [h]; exact hcur)
    rw [focusEffectStep, if_neg hne, focusEffectBody, if_pos hcur, if_neg hmode]
  · rw [focusEffectStep, if_pos rfl]

/-- C6 witness: clearing focus from Earth in Pointer mode starts the reset
transition once, and an identical subsequent render does not restart it. -/
theorem C6_witness :
    focusEffectStep ⟨some "earth", .MOUSE⟩ ⟨none, .MOUSE⟩ = some resetTransition ∧
    focusEffectStep ⟨none, .MOUSE⟩ ⟨none, .MOUSE⟩ = none :=
  C6_reset_transition ⟨some "earth", .MOUSE⟩ ⟨none, .MOUSE⟩
    (by simp) rfl (by simp)

/-- C6 counterexample: after focus is cleared in Pointer mode (first
transition start), merely switching the control mode to Keyboard — with the
focus still cleared, and no new clearing event — re-runs the effect and
starts the 2-second transition a second time, refuting "started only once
per clearing event". -/
theorem C6_cex :
    focusEffectStep ⟨some "earth", .MOUSE⟩ ⟨none, .MOUSE⟩ = some resetTransition ∧
    focusEffectStep ⟨none, .MOUSE⟩ ⟨none, .KEYBOARD⟩ = some resetTransition := by
  constructor
  · rw [focusEffectStep, if_neg (by simp), focusEffectBody,
        if_pos rfl, if_neg (by simp)]
  · rw [focusEffectStep, if_neg (by simp), focusEffectBody,
        if_pos rfl, if_neg (by simp)]

/-- Helper for C7: a body with orbital distance 0 never moves — the render
update leaves the origin fixed on every frame. -/
theorem planetPos_center (ops : RealOps) (data : PlanetData)
    (h : data.distance = 0) (frames : List (ℚ × ℚ)) :
    planetPosFromStart ops data frames = ⟨0, 0, 0⟩ := by
  have hstep : ∀ el sp : ℚ, planetOrbitUpdate ops data el sp ⟨0, 0, 0⟩ = ⟨0, 0, 0⟩ := by
    intro el sp
    rw [planetOrbitUpdate]
    simp [h]
  induction frames with
  | nil => rfl
  | cons fr rest ih =>
      simp only [planetPosFromStart, List.foldl_cons] at ih ⊢
      rw [hstep fr.1 fr.2]
      exact ih

/-- C7: orbit kinematics is the pure deterministic function
`angle = elapsed × speed × simSpeed × 0.2; (cos(angle)×d, sin(angle)×d)`:
the rendering layer's planet-orbit update realizes it whenever distance > 0,
a distance-0 body (the sun) stays at the origin for every frame sequence
while the pure function also yields (0,0), and the camera controller's
focus-tracking branch lerps the controls target toward exactly the same
(x, z) for the same inputs. -/
theorem C7_orbit_kinematics (ops : RealOps) (planet : PlanetData)
    (elapsed simSpeed : ℚ) (pos : Vec3) (frames : List (ℚ × ℚ))
    (g : HandGesture) (delta : ℚ) (s : CamState)
    (hfind : PLANET_DATA.find? (fun p => p.id == planet.id) = some planet) :
    (0 < planet.distance →
      planetOrbitUpdate ops planet elapsed simSpeed pos =
        ⟨(orbitKinematicsSpec ops planet elapsed simSpeed).1, pos.y,
         (orbitKinematicsSpec ops planet elapsed simSpeed).2⟩) ∧
    (planet.distance = 0 →
      planetPosFromStart ops planet frames = ⟨0, 0, 0⟩ ∧
      orbitKinematicsSpec ops planet elapsed simSpeed = (0, 0)) ∧
    (frameStep ops .MOUSE (some planet.id) g elapsed delta simSpeed s).ctrlTarget =
      lerpV s.ctrlTarget
        ⟨(orbitKinematicsSpec ops planet elapsed simSpeed).1, 0,
         (orbitKinematicsSpec ops planet elapsed simSpeed).2⟩ 0.1 := by
  refine ⟨?_, ?_, ?_⟩
  · intro hd
    rw [planetOrbitUpdate, orbitKinematicsSpec]
    simp [hd]
  · intro h0
    refine ⟨planetPos_center ops planet h0 frames, ?_⟩
    rw [orbitKinematicsSpec]
    simp [h0]
  · simp only [frameStep, hfind, orbitKinematicsSpec]
    rfl

/-- C7 witness: at concrete inputs — Earth (distance 75) for the moving-body
and controller conjuncts, the Sun (distance 0) for the central-body
conjunct — the kinematics agreement holds. -/
theorem C7_witness :
    planetOrbitUpdate ops0 earthD 1 1 ⟨0, 5, 0⟩ =
      ⟨(orbitKinematicsSpec ops0 earthD 1 1).1, 5,
       (orbitKinematicsSpec ops0 earthD 1 1).2⟩ ∧
    planetPosFromStart ops0 sunD [(1, 1), (2, 1)] = ⟨0, 0, 0⟩ ∧
    orbitKinematicsSpec ops0 sunD 1 1 = (0, 0) ∧
    (frameStep ops0 .MOUSE (some earthD.id) .NONE 1 1 1 cam0).ctrlTarget =
      lerpV cam0.ctrlTarget
        ⟨(orbitKinematicsSpec ops0 earthD 1 1).1, 0,
         (orbitKinematicsSpec ops0 earthD 1 1).2⟩ 0.1 := by
  have he := C7_orbit_kinematics ops0 earthD 1 1 ⟨0, 5, 0⟩ [(1, 1), (2, 1)]
      .NONE 1 cam0 rfl
  have hs := C7_orbit_kinematics ops0 sunD 1 1 ⟨0, 5, 0⟩ [(1, 1), (2, 1)]
      .NONE 1 cam0 rfl
  have hd : (0 : ℚ) < earthD.distance := by norm_num [earthD]
  exact ⟨he.1 hd, (hs.2.1 rfl).1, (hs.2.1 rfl).2, he.2.2⟩

/-- Helper for C8: one render frame keeps the hand-zoom radius inside
[50, 600] — every branch either leaves it unchanged or clamps it. -/
theorem frameStep_zoom_bounds (ops : RealOps) (mode : ControlMode)
    (fb : Option String) (g : HandGesture) (elapsed delta simSpeed : ℚ)
    (s : CamState) (hlo : 50 ≤ s.handZoom) (hhi : s.handZoom ≤ 600) :
    50 ≤ (frameStep ops mode fb g elapsed delta simSpeed s).handZoom ∧
    (frameStep ops mode fb g elapsed delta simSpeed s).handZoom ≤ 600 := by
  cases mode with
  | AUTO => exact ⟨hlo, hhi⟩
  | HAND =>
      cases g with
      | ZOOM v =>
          constructor
          · exact le_max_left _ _
          · exact max_le (by norm_num) (min_le_left _ _)
      | NONE => exact ⟨hlo, hhi⟩
      | ROTATE dx dy => exact ⟨hlo, hhi⟩
      | FOCUS gx gy => exact ⟨hlo, hhi⟩
      | EXIT_FOCUS => exact ⟨hlo, hhi⟩
  | MOUSE =>
      cases fb with
      | none => exact ⟨hlo, hhi⟩
      | some id =>
          rcases hf : PLANET_DATA.find? (fun p => p.id == id) with _ | planet <;>
            simp only [frameStep, hf] <;> exact ⟨hlo, hhi⟩
  | KEYBOARD =>
      cases fb with
      | none => exact ⟨hlo, hhi⟩
      | some id =>
          rcases hf : PLANET_DATA.find? (fun p => p.id == id) with _ | planet <;>
            simp only [frameStep, hf] <;> exact ⟨hlo, hhi⟩

/-- C8: starting from the initial camera state (zoom 300), the persistent
hand-zoom radius stays inside [50, 600] after any sequence of render frames,
whatever modes, gestures and Zoom deltas they carry (the ZOOM branch clamps
with `max 50 (min 600 (zoom - delta))`, and no other branch writes it). -/
theorem C8_zoom_clamped (ops : RealOps) (fs : List FrameInput) :
    50 ≤ (runFrames ops cam0 fs).handZoom ∧
    (runFrames ops cam0 fs).handZoom ≤ 600 := by
  suffices h : ∀ s : CamState, 50 ≤ s.handZoom → s.handZoom ≤ 600 →
      50 ≤ (runFrames ops s fs).handZoom ∧ (runFrames ops s fs).handZoom ≤ 600 by
    exact h cam0 (by norm_num [cam0]) (by norm_num [cam0])
  induction fs with
  | nil => exact fun s hlo hhi => ⟨hlo, hhi⟩
  | cons f rest ih =>
      intro s hlo hhi
      simp only [runFrames, List.foldl_cons] at ih ⊢
      obtain ⟨c, d⟩ := frameStep_zoom_bounds ops f.mode f.focusedBody f.gesture
        f.elapsed f.delta f.simSpeed s hlo hhi
      exact ih _ c d

end NeonSolar
